import Mathlib

/-!
# Webhook delivery service: verification of spec claims

Shallow embedding of the core of the webhook delivery service
(signature verifier, delivery worker, subscription cache, ingestion
endpoint, subscription update) and proofs settling the frozen claims
about it.  Each definition mirrors one Python function of the source
tree; machine-level library calls (HMAC, JSON parsing, the random draw)
are passed in as explicit function parameters so that control flow around
them is embedded faithfully.
-/

namespace WebhookService

/-- Raw request bodies: a list of byte values (Python `bytes`). -/
abbrev Bytes := List Nat

/-- A Python string is ASCII-only when every character is below 128.
`hmac.compare_digest` on `str` arguments requires this. -/
def isAsciiStr (s : String) : Bool :=
  s.toList.all (fun c => c.val ≤ 127)

/-- Embedding of Python `hmac.compare_digest(a, b)` on `str` arguments:
raises `TypeError` (modelled as `Except.error ()`) unless both strings are
ASCII-only; otherwise returns their (constant-time) equality. -/
def compare_digest (a b : String) : Except Unit Bool :=
  if isAsciiStr a && isAsciiStr b then Except.ok (a == b) else Except.error ()

/-- Split a character list at the FIRST occurrence of `sep`, like Python
`s.split(sep, 1)` when it yields two parts; `none` when `sep` is absent
(in which case the 2-tuple unpacking in the source raises `ValueError`). -/
def splitFirst (sep : Char) : List Char → Option (List Char × List Char)
  | [] => none
  | c :: cs =>
    if c = sep then some ([], cs)
    else (splitFirst sep cs).map (fun p => (c :: p.1, p.2))

/-- Python `str.lower()`, restricted to the ASCII case folding that decides
the `method.lower() != 'sha256'` comparison in the source. -/
def pyLower (s : String) : String :=
  String.mk (s.toList.map Char.toLower)

/-- Embedding of `verify_signature` from `app/core/security.py`.

`hmacHex secret body` stands for
`hmac.new(secret.encode('utf-8'), msg=body, digestmod=hashlib.sha256).hexdigest()`
(the Python standard-library call), passed in as a parameter.
The result is `Except Unit Bool`: `Except.error ()` models an uncaught
exception escaping the function (the `try` block in the source only
guards the header split, not the final `hmac.compare_digest`). -/
def verify_signature (hmacHex : String → Bytes → String)
    (secret : Option String) (request_body : Bytes)
    (signature_header : Option String) : Except Unit Bool :=
  -- `if not secret:` — true for None and for the empty string
  match secret with
  | none => Except.ok true
  | some s =>
    if s = "" then Except.ok true
    else
      -- `if not signature_header:` — true for None and for the empty string
      match signature_header with
      | none => Except.ok false
      | some h =>
        if h = "" then Except.ok false
        else
          match splitFirst '=' h.toList with
          | none => Except.ok false  -- ValueError caught: invalid header format
          | some (methodCs, hashCs) =>
            if pyLower (String.mk methodCs) ≠ "sha256" then Except.ok false
            else
              let expected_signature := hmacHex s request_body
              compare_digest expected_signature (String.mk hashCs)

end WebhookService

namespace WebhookService

example : verify_signature (fun _ _ => "ab") none [1, 2] none = Except.ok true := by rfl

example : verify_signature (fun _ _ => "ab") (some "k") [1, 2] (some "sha256=ab") =
    Except.ok true := by rfl

example : verify_signature (fun _ _ => "ab") (some "k") [1, 2] (some "SHA256=ab") =
    Except.ok true := by rfl

example : verify_signature (fun _ _ => "ab") (some "k") [1, 2] (some "sha256=cd") =
    Except.ok false := by rfl

example : verify_signature (fun _ _ => "ab") (some "k") [1, 2] (some "md5=ab") =
    Except.ok false := by rfl

example : verify_signature (fun _ _ => "ab") (some "k") [1, 2] (some "nonsense") =
    Except.ok false := by rfl

example : verify_signature (fun _ _ => "ab") (some "k") [1, 2] none = Except.ok false := by
  rfl

example : verify_signature (fun _ _ => "ab") (some "") [1, 2] none = Except.ok true := by rfl

example : verify_signature (fun _ _ => "ab") (some "k") [1, 2] (some "sha256=é") =
    Except.error () := by rfl

end WebhookService

namespace WebhookService

/-- Delivery status values stored in `webhook_deliveries.status`. -/
inductive DStatus
  | pending
  | processing
  | failed_attempt
  | success
  | failed
deriving DecidableEq

/-- A status is terminal when the worker's short-circuit
`delivery.status in ["success", "failed"]` fires. -/
def DStatus.isTerminal : DStatus → Bool
  | .success => true
  | .failed => true
  | _ => false

/-- Per-attempt outcome stored in `delivery_attempts.outcome`. -/
inductive Outcome
  | success
  | failed
deriving DecidableEq

/-- One `delivery_attempts` row, restricted to the fields the claims
quantify over. -/
structure Attempt where
  attempt_number : Nat
  outcome : Outcome
deriving DecidableEq

/-- One `webhook_deliveries` row together with its attempt rows;
timestamps are abstract instants (`Nat`). -/
structure Delivery where
  status : DStatus
  last_attempt_at : Option Nat
  attempts : List Attempt
deriving DecidableEq

/-- Observable side effects of one run of the worker task on one queue
message: whether an HTTP attempt was made, whether an attempt row was
inserted, whether any delivery-status write happened, and whether the
message was re-enqueued for retry. -/
structure Effects where
  httpAttempted : Bool
  attemptInserted : Bool
  statusWritten : Bool
  requeued : Bool
deriving DecidableEq

/-- No observable effect. -/
def noEffects : Effects := ⟨false, false, false, false⟩

/-- Embedding of the Celery task `deliver_webhook` from
`app/tasks/delivery.py`, processing one queue message for one delivery.

* `maxRetries` is `MAX_RETRIES`; `retries` is `self.request.retries`
  (0 on the first dispatch of a job), so `attempt_number = retries + 1`;
* `now` is the `datetime.now(timezone.utc)` instant taken for the attempt;
* `subFound` says whether resolving the subscription via cache and then
  store produced a subscription;
* `outcome` is the classification of the HTTP attempt (success for a 2xx
  response, failed for timeout / transport error / non-2xx);
* the result pairs the delivery row after the run with the observable
  effects; `requeued` is Celery's `autoretry_for` re-enqueue, which fires
  exactly when the task re-raises and `retries < maxRetries`. -/
def deliver_webhook (maxRetries retries now : Nat) (subFound : Bool)
    (outcome : Outcome) (d : Option Delivery) : Option Delivery × Effects :=
  match d with
  | none => (none, noEffects)         -- delivery not found in DB: stop
  | some delivery =>
    if delivery.status.isTerminal then
      (some delivery, noEffects)      -- already success/failed: skip
    else if !subFound then
      -- subscription not found (DB & cache): mark failed and return
      (some { delivery with status := .failed, last_attempt_at := some now },
       { noEffects with statusWritten := true })
    else
      -- update status to processing (write only if different; no timestamp)
      let d1 : Delivery := { delivery with status := .processing }
      -- the HTTP attempt runs; the finally block always logs the attempt row
      let d2 : Delivery :=
        { d1 with attempts := d1.attempts ++ [⟨retries + 1, outcome⟩] }
      match outcome with
      | .success =>
        (some { d2 with status := .success, last_attempt_at := some now },
         ⟨true, true, true, false⟩)
      | .failed =>
        if retries ≥ maxRetries then
          (some { d2 with status := .failed, last_attempt_at := some now },
           ⟨true, true, true, false⟩)
        else
          (some { d2 with status := .failed_attempt, last_attempt_at := some now },
           ⟨true, true, true, true⟩)

/-- Successive runs of `deliver_webhook` on one delivery, driven by
Celery's autoretry: each requeue increments `retries`, and `outcomes`
lists the HTTP classification of each dispatched attempt in order.  The
run stops as soon as a message is not re-enqueued; the subscription is
assumed to stay resolvable. -/
def runDelivery (maxRetries : Nat) (retries now : Nat) (d : Option Delivery) :
    List Outcome → Option Delivery
  | [] => d
  | o :: os =>
    let r := deliver_webhook maxRetries retries now true o d
    if r.2.requeued then runDelivery maxRetries (retries + 1) (now + 1) r.1 os
    else r.1

example :
    runDelivery 1 0 0 (some ⟨.pending, none, []⟩) [.failed, .failed]
      = some ⟨.failed, some 1, [⟨1, .failed⟩, ⟨2, .failed⟩]⟩ := by decide

example :
    runDelivery 5 0 0 (some ⟨.pending, none, []⟩) [.failed, .success]
      = some ⟨.success, some 1, [⟨1, .failed⟩, ⟨2, .success⟩]⟩ := by decide

example :
    runDelivery 0 0 0 (some ⟨.pending, none, []⟩) [.failed, .failed]
      = some ⟨.failed, some 0, [⟨1, .failed⟩]⟩ := by decide

/-- Equation: worker run on a non-terminal delivery with a resolvable
subscription and a successful HTTP attempt. -/
lemma deliver_webhook_success_eq (maxRetries retries now : Nat) (dl : Delivery)
    (hterm : dl.status.isTerminal = false) :
    deliver_webhook maxRetries retries now true Outcome.success (some dl)
      = (some { dl with status := DStatus.success, last_attempt_at := some now,
                        attempts := dl.attempts ++ [⟨retries + 1, Outcome.success⟩] },
         ⟨true, true, true, false⟩) := by
  simp [deliver_webhook, hterm]

/-- Equation: failed HTTP attempt with the retry budget exhausted
(`self.request.retries >= MAX_RETRIES`). -/
lemma deliver_webhook_failed_high_eq (maxRetries retries now : Nat) (dl : Delivery)
    (hterm : dl.status.isTerminal = false) (hge : maxRetries ≤ retries) :
    deliver_webhook maxRetries retries now true Outcome.failed (some dl)
      = (some { dl with status := DStatus.failed, last_attempt_at := some now,
                        attempts := dl.attempts ++ [⟨retries + 1, Outcome.failed⟩] },
         ⟨true, true, true, false⟩) := by
  simp [deliver_webhook, hterm, hge]

/-- Equation: failed HTTP attempt with retries left
(`self.request.retries < MAX_RETRIES`): `failed_attempt` plus requeue. -/
lemma deliver_webhook_failed_low_eq (maxRetries retries now : Nat) (dl : Delivery)
    (hterm : dl.status.isTerminal = false) (hlt : retries < maxRetries) :
    deliver_webhook maxRetries retries now true Outcome.failed (some dl)
      = (some { dl with status := DStatus.failed_attempt, last_attempt_at := some now,
                        attempts := dl.attempts ++ [⟨retries + 1, Outcome.failed⟩] },
         ⟨true, true, true, true⟩) := by
  have hnge : ¬ maxRetries ≤ retries := Nat.not_le_of_lt hlt
  simp [deliver_webhook, hterm, hnge]

/-- Run invariant: starting from a non-terminal delivery holding `retries`
attempt rows, all failed, with `retries ≤ maxRetries`, any run that ends in
terminal `failed` has accumulated exactly `maxRetries + 1` attempt rows,
all failed. -/
lemma runDelivery_failed_inv (maxRetries : Nat) :
    ∀ (os : List Outcome) (retries now : Nat) (dl : Delivery),
      dl.status.isTerminal = false →
      dl.attempts.length = retries →
      retries ≤ maxRetries →
      (∀ a ∈ dl.attempts, a.outcome = Outcome.failed) →
      ∀ dfin, runDelivery maxRetries retries now (some dl) os = some dfin →
        dfin.status = DStatus.failed →
        dfin.attempts.length = maxRetries + 1 ∧
          ∀ a ∈ dfin.attempts, a.outcome = Outcome.failed := by
  intro os
  induction os with
  | nil =>
    intro retries now dl hterm hlen hle hall dfin hrun hfail
    simp only [runDelivery, Option.some.injEq] at hrun
    subst hrun
    rw [hfail] at hterm
    simp [DStatus.isTerminal] at hterm
  | cons o os ih =>
    intro retries now dl hterm hlen hle hall dfin hrun hfail
    cases o with
    | success =>
      rw [runDelivery, deliver_webhook_success_eq maxRetries retries now dl hterm] at hrun
      rw [if_neg (by decide : ¬ (false = true))] at hrun
      injection hrun with hrun
      subst hrun
      simp at hfail
    | failed =>
      by_cases hge : maxRetries ≤ retries
      · rw [runDelivery, deliver_webhook_failed_high_eq maxRetries retries now dl hterm hge] at hrun
        rw [if_neg (by decide : ¬ (false = true))] at hrun
        injection hrun with hrun
        subst hrun
        have heq : retries = maxRetries := Nat.le_antisymm hle hge
        subst heq
        refine ⟨by simp [hlen], ?_⟩
        intro a ha
        simp only [List.mem_append, List.mem_singleton] at ha
        rcases ha with h1 | h2
        · exact hall a h1
        · rw [h2]
      · have hlt : retries < maxRetries := Nat.lt_of_not_le hge
        rw [runDelivery, deliver_webhook_failed_low_eq maxRetries retries now dl hterm hlt] at hrun
        rw [if_pos (rfl : (true = true))] at hrun
        refine ih (retries + 1) (now + 1) _ (by simp [DStatus.isTerminal]) (by simp [hlen])
          (Nat.succ_le_of_lt hlt) ?_ dfin hrun hfail
        intro a ha
        simp only [List.mem_append, List.mem_singleton] at ha
        rcases ha with h1 | h2
        · exact hall a h1
        · rw [h2]

/-- **C2.** When an attempt ends in outcome `failed`, the worker writes
terminal `failed` iff `attempt_number = retries + 1 > MAX_RETRIES`, and
otherwise writes `failed_attempt` and re-enqueues; consequently any run
from the initial pending delivery that ends in terminal `failed` has
exactly `MAX_RETRIES + 1` attempt rows, all failed, and with
`MAX_RETRIES = 0` a failure on the single first attempt goes directly to
terminal `failed`. -/
theorem worker_failed_terminality (maxRetries : Nat) :
    (∀ retries now : Nat, ∀ dl : Delivery, dl.status.isTerminal = false →
      (((deliver_webhook maxRetries retries now true Outcome.failed (some dl)).1.map
            Delivery.status = some DStatus.failed) ↔ retries + 1 > maxRetries)
      ∧ (retries + 1 ≤ maxRetries →
          (deliver_webhook maxRetries retries now true Outcome.failed (some dl)).1.map
              Delivery.status = some DStatus.failed_attempt
          ∧ (deliver_webhook maxRetries retries now true Outcome.failed
              (some dl)).2.requeued = true))
    ∧ (∀ (os : List Outcome) (now : Nat) (dfin : Delivery),
        runDelivery maxRetries 0 now (some ⟨DStatus.pending, none, []⟩) os = some dfin →
        dfin.status = DStatus.failed →
        dfin.attempts.length = maxRetries + 1
          ∧ ∀ a ∈ dfin.attempts, a.outcome = Outcome.failed)
    ∧ (∀ now : Nat,
        (deliver_webhook 0 0 now true Outcome.failed
          (some ⟨DStatus.pending, none, []⟩)).1.map Delivery.status
          = some DStatus.failed) := by
  refine ⟨?_, ?_, ?_⟩
  · intro retries now dl hterm
    by_cases hge : maxRetries ≤ retries
    · rw [deliver_webhook_failed_high_eq maxRetries retries now dl hterm hge]
      constructor
      · simp [Nat.lt_succ_of_le hge]
      · intro hle
        exact absurd hge (Nat.not_le_of_lt (Nat.lt_of_succ_le hle))
    · have hlt : retries < maxRetries := Nat.lt_of_not_le hge
      rw [deliver_webhook_failed_low_eq maxRetries retries now dl hterm hlt]
      constructor
      · simp [Nat.not_lt_of_le (Nat.succ_le_of_lt hlt)]
      · intro _; exact ⟨rfl, rfl⟩
  · intro os now dfin hrun hfail
    exact runDelivery_failed_inv maxRetries os 0 now ⟨DStatus.pending, none, []⟩
      rfl rfl (Nat.zero_le _) (by intro a ha; simp at ha) dfin hrun hfail
  · intro now
    rw [deliver_webhook_failed_high_eq 0 0 now ⟨DStatus.pending, none, []⟩ rfl (Nat.le_refl 0)]
    rfl

/-- Witness for C2 at concrete inputs: with `MAX_RETRIES = 1`, a first
failed attempt yields `failed_attempt`, and the run `failed, failed` ends
in terminal `failed` with `1 + 1` attempt rows. -/
theorem worker_failed_terminality_witness :
    ((deliver_webhook 1 0 5 true Outcome.failed
        (some ⟨DStatus.pending, none, []⟩)).1.map Delivery.status
      = some DStatus.failed_attempt)
    ∧ ((⟨DStatus.failed, some 1, [⟨1, Outcome.failed⟩, ⟨2, Outcome.failed⟩]⟩ :
          Delivery).attempts.length = 1 + 1) :=
  ⟨(((worker_failed_terminality 1).1 0 5 ⟨DStatus.pending, none, []⟩ rfl).2
      (by decide)).1,
   ((worker_failed_terminality 1).2.1 [Outcome.failed, Outcome.failed] 0
      ⟨DStatus.failed, some 1, [⟨1, Outcome.failed⟩, ⟨2, Outcome.failed⟩]⟩
      (by decide) rfl).1⟩

/-- **C3.** Processing a queue message for a delivery already in a
terminal status (`success` or `failed`) is a no-op: the worker returns
before any HTTP attempt, inserts no attempt row, writes no status, does
not requeue, and leaves the delivery row unchanged. -/
theorem deliver_webhook_terminal_noop (maxRetries retries now : Nat) (subFound : Bool)
    (o : Outcome) (dl : Delivery)
    (h : dl.status = DStatus.success ∨ dl.status = DStatus.failed) :
    deliver_webhook maxRetries retries now subFound o (some dl) = (some dl, noEffects) := by
  have hterm : dl.status.isTerminal = true := by
    rcases h with h | h <;> simp [h, DStatus.isTerminal]
  simp [deliver_webhook, hterm]

/-- Witness for C3: replaying a message for a delivery already `success`
changes nothing. -/
theorem deliver_webhook_terminal_noop_witness :
    deliver_webhook 5 0 3 true Outcome.failed
        (some ⟨DStatus.success, some 1, [⟨1, Outcome.success⟩]⟩)
      = (some ⟨DStatus.success, some 1, [⟨1, Outcome.success⟩]⟩, noEffects) :=
  deliver_webhook_terminal_noop 5 0 3 true Outcome.failed
    ⟨DStatus.success, some 1, [⟨1, Outcome.success⟩]⟩ (Or.inl rfl)

/-- **C4 counterexample.** With the subscription missing, the worker marks
the delivery terminal `failed` but inserts NO attempt row, contrary to the
claim that an attempt row with `outcome=failed` is written: at the concrete
pending delivery below, the attempt table stays empty and
`attemptInserted = false`. -/
theorem deliver_webhook_missing_sub_counterexample :
    (deliver_webhook 5 0 7 false Outcome.failed
        (some ⟨DStatus.pending, none, []⟩))
      = (some ⟨DStatus.failed, some 7, []⟩,
         { noEffects with statusWritten := true })
    ∧ (deliver_webhook 5 0 7 false Outcome.failed
        (some ⟨DStatus.pending, none, []⟩)).2.attemptInserted = false := by
  constructor
  · rfl
  · rfl

/-- **C4 (amended).** When the worker processes a non-terminal delivery
whose subscription is found in neither the cache nor the store, it sets
the delivery status to terminal `failed` with `last_attempt_at = now` and
stops: no HTTP attempt is made, no attempt row is inserted, and nothing
is requeued. -/
theorem deliver_webhook_missing_sub (maxRetries retries now : Nat) (o : Outcome)
    (dl : Delivery) (hterm : dl.status.isTerminal = false) :
    deliver_webhook maxRetries retries now false o (some dl)
      = (some { dl with status := DStatus.failed, last_attempt_at := some now },
         { noEffects with statusWritten := true }) := by
  simp [deliver_webhook, hterm]

/-- Witness for the amended C4 at a concrete pending delivery. -/
theorem deliver_webhook_missing_sub_witness :
    deliver_webhook 5 2 11 false Outcome.failed
        (some ⟨DStatus.failed_attempt, some 9, [⟨1, Outcome.failed⟩]⟩)
      = (some ⟨DStatus.failed, some 11, [⟨1, Outcome.failed⟩]⟩,
         { noEffects with statusWritten := true }) :=
  deliver_webhook_missing_sub 5 2 11 Outcome.failed
    ⟨DStatus.failed_attempt, some 9, [⟨1, Outcome.failed⟩]⟩ rfl

end WebhookService

namespace WebhookService

/-- The corrected contract of the signature verifier, stated by cases:
secret absent **or empty** → accept; nonempty secret with header absent →
reject; header without an `=` separator (which covers the empty header) or
with an algorithm part other than `sha256` case-insensitively → reject;
otherwise accept iff the hex HMAC digest equals the part after the first
`=` under the constant-time comparison, which raises when either side
contains a non-ASCII character. -/
def verify_signature_contract (hmacHex : String → Bytes → String)
    (secret : Option String) (request_body : Bytes)
    (signature_header : Option String) : Except Unit Bool :=
  match secret with
  | none => Except.ok true
  | some s =>
    if s = "" then Except.ok true
    else
      match signature_header with
      | none => Except.ok false
      | some h =>
        match splitFirst '=' h.toList with
        | none => Except.ok false
        | some (algCs, hexCs) =>
          if pyLower (String.mk algCs) = "sha256" then
            compare_digest (hmacHex s request_body) (String.mk hexCs)
          else Except.ok false

/-- **C1 counterexample.** The claim requires that a *present* secret with
an *absent* header is rejected; with the present-but-empty secret `""` and
no header, `verify_signature` accepts (the Python `if not secret:` check
treats `""` like `None`), so the claim as stated is false. -/
theorem verify_signature_c1_counterexample :
    verify_signature (fun _ _ => "00") (some "") [] none = Except.ok true
    ∧ verify_signature (fun _ _ => "00") (some "") [] none ≠ Except.ok false := by
  refine ⟨rfl, ?_⟩
  intro hcontra
  rw [(rfl : verify_signature (fun _ _ => "00") (some "") [] none = Except.ok true)]
    at hcontra
  injection hcontra with hcontra
  exact Bool.noConfusion hcontra

/-- **C1 (amended).** `verify_signature` coincides, for every HMAC
function, secret, body and header, with the corrected case contract: an
absent or empty secret accepts unconditionally; a nonempty secret with an
absent (or empty) header rejects; a header not of the form
`<algorithm>=<rest>` with `algorithm` equal to `sha256` case-insensitively
rejects; otherwise the result is the constant-time comparison of the hex
HMAC digest with `<rest>`, which raises `TypeError` (modelled as
`Except.error`) when a compared string contains non-ASCII characters. -/
theorem verify_signature_matches_contract (hmacHex : String → Bytes → String)
    (secret : Option String) (request_body : Bytes)
    (signature_header : Option String) :
    verify_signature hmacHex secret request_body signature_header
      = verify_signature_contract hmacHex secret request_body signature_header := by
  cases secret with
  | none => rfl
  | some s =>
    by_cases hs : s = ""
    · simp [verify_signature, verify_signature_contract, hs]
    · cases signature_header with
      | none => simp [verify_signature, verify_signature_contract, hs]
      | some h =>
        by_cases hh : h = ""
        · subst hh
          simp [verify_signature, verify_signature_contract, hs]
          rfl
        · cases hsplit : splitFirst '=' h.toList with
          | none => simp [verify_signature, verify_signature_contract, hs, hh, hsplit]
          | some p =>
            obtain ⟨algCs, hexCs⟩ := p
            by_cases halg : pyLower (String.mk algCs) = "sha256"
            · simp [verify_signature, verify_signature_contract, hs, hh, hsplit, halg]
            · simp [verify_signature, verify_signature_contract, hs, hh, hsplit, halg]

/-- **C9.** With an empty-string `secret_key` the verifier accepts every
body and every header value (present, missing, malformed or wrong): the
falsy check skips verification exactly as for an absent secret. -/
theorem verify_signature_empty_secret (hmacHex : String → Bytes → String)
    (request_body : Bytes) (signature_header : Option String) :
    verify_signature hmacHex (some "") request_body signature_header
      = Except.ok true := by
  simp [verify_signature]

end WebhookService

namespace WebhookService

/-- `MAX_RETRIES` default (`WEBHOOK_MAX_RETRIES`, `app/tasks/delivery.py`). -/
def MAX_RETRIES : Nat := 5

/-- `INITIAL_RETRY_DELAY_SECONDS`, the `retry_backoff` base delay. -/
def INITIAL_RETRY_DELAY_SECONDS : Nat := 10

/-- `MAX_RETRY_BACKOFF_SECONDS`, the `retry_backoff_max` cap. -/
def MAX_RETRY_BACKOFF_SECONDS : Nat := 900

/-- The backoff computation that the retry configuration of
`deliver_webhook` (`retry_backoff=INITIAL_RETRY_DELAY_SECONDS`,
`retry_backoff_max=MAX_RETRY_BACKOFF_SECONDS`, `retry_jitter=True`)
delegates to: the Celery library's
`get_exponential_backoff_interval(factor, retries, maximum, full_jitter)`
computes `countdown = min(maximum, factor * 2**retries)` and, with full
jitter enabled, replaces it by `random.randrange(countdown + 1)` — a
uniform integer in `[0, countdown]`.  `draw n` stands for
`random.randrange(n)`, so any legal draw satisfies `draw n < n`; the
final `max(0, countdown)` in the library is the identity on naturals. -/
def get_exponential_backoff_interval (factor retries maximum : Nat)
    (fullJitter : Bool) (draw : Nat → Nat) : Nat :=
  let countdown := min maximum (factor * 2 ^ retries)
  if fullJitter then draw (countdown + 1) else countdown

/-- **C6 counterexample.** For the first failed attempt (`n = 1`,
`retries = 0`) the nominal backoff is `min(900, 10·2^0) = 10`, and the
claim requires the drawn delay to lie in `[5, 15)`; but the draw `0` is a
legal `randrange(11)` value and produces the dispatched delay `0`, which
is below half the nominal delay. -/
theorem backoff_jitter_counterexample :
    get_exponential_backoff_interval 10 0 900 true (fun _ => 0) = 0
    ∧ 0 < min 900 (10 * 2 ^ 0) + 1
    ∧ ¬ (min 900 (10 * 2 ^ 0)
          ≤ 2 * get_exponential_backoff_interval 10 0 900 true (fun _ => 0)) := by
  decide

/-- **C6 (amended).** With `retry_jitter=True` the delay dispatched after
failed attempt `n` (1-based, `retries = n − 1`) is
`randrange(nominal + 1)` with `nominal = min(CAP, BASE·2^(n−1))`,
`BASE = 10`, `CAP = 900`: a uniform integer in `[0, nominal]`.  Hence for
every legal draw the delay is at most `nominal` and never exceeds `CAP`;
the spec's range `[0.5·nominal, 1.5·nominal)` does not hold. -/
theorem backoff_full_jitter (retries : Nat) (draw : Nat → Nat)
    (hdraw : ∀ m, 0 < m → draw m < m) :
    get_exponential_backoff_interval INITIAL_RETRY_DELAY_SECONDS retries
        MAX_RETRY_BACKOFF_SECONDS true draw
      = draw (min MAX_RETRY_BACKOFF_SECONDS
          (INITIAL_RETRY_DELAY_SECONDS * 2 ^ retries) + 1)
    ∧ get_exponential_backoff_interval INITIAL_RETRY_DELAY_SECONDS retries
        MAX_RETRY_BACKOFF_SECONDS true draw
        ≤ min MAX_RETRY_BACKOFF_SECONDS (INITIAL_RETRY_DELAY_SECONDS * 2 ^ retries)
    ∧ get_exponential_backoff_interval INITIAL_RETRY_DELAY_SECONDS retries
        MAX_RETRY_BACKOFF_SECONDS true draw ≤ MAX_RETRY_BACKOFF_SECONDS := by
  have heq : get_exponential_backoff_interval INITIAL_RETRY_DELAY_SECONDS retries
      MAX_RETRY_BACKOFF_SECONDS true draw
      = draw (min MAX_RETRY_BACKOFF_SECONDS
          (INITIAL_RETRY_DELAY_SECONDS * 2 ^ retries) + 1) := rfl
  have hle : draw (min MAX_RETRY_BACKOFF_SECONDS
      (INITIAL_RETRY_DELAY_SECONDS * 2 ^ retries) + 1)
      ≤ min MAX_RETRY_BACKOFF_SECONDS (INITIAL_RETRY_DELAY_SECONDS * 2 ^ retries) :=
    Nat.lt_succ_iff.mp (hdraw _ (Nat.succ_pos _))
  exact ⟨heq, heq ▸ hle, heq ▸ Nat.le_trans hle (Nat.min_le_left _ _)⟩

/-- Witness for the amended C6 with the maximal legal draw
`randrange(n) = n − 1` on the first retry. -/
theorem backoff_full_jitter_witness :
    get_exponential_backoff_interval INITIAL_RETRY_DELAY_SECONDS 0
        MAX_RETRY_BACKOFF_SECONDS true (fun m => m - 1)
      ≤ MAX_RETRY_BACKOFF_SECONDS :=
  (backoff_full_jitter 0 (fun m => m - 1)
    (fun _ hm => Nat.sub_lt hm Nat.one_pos)).2.2

end WebhookService

namespace WebhookService

/-- A `subscriptions` row (`app/models/subscription.py`): `secret_key` is
nullable.  Timestamps are omitted: no claim mentions them. -/
structure Subscription where
  id : Nat
  target_url : String
  secret_key : Option String
deriving DecidableEq

/-- Classification of a string stored in the cache under a subscription
key, by how `json.loads` and `Subscription(**·)` treat it inside
`get_subscription_from_cache`:
* `emptyStr`: the empty string — falsy, so the source's `if cached_data:`
  takes the miss branch;
* `invalidJson`: a non-empty string rejected by `json.loads`
  (`json.JSONDecodeError`);
* `jsonNotSubscription`: valid JSON that `Subscription(**·)` rejects
  (pydantic `ValidationError`, or `TypeError` for non-mapping JSON),
  which no `except` clause of the source catches;
* `subscriptionVal s`: a stored JSON encoding of the subscription `s`. -/
inductive CachedValue
  | emptyStr
  | invalidJson
  | jsonNotSubscription
  | subscriptionVal (s : Subscription)
deriving DecidableEq

/-- `_get_subscription_cache_key` from `app/core/cache.py`. -/
def _get_subscription_cache_key (subscription_id : Nat) : String :=
  "subscription:" ++ toString subscription_id

/-- Embedding of `get_subscription_from_cache` (`app/core/cache.py`) over
a healthy cache, modelled as an association list from keys to stored
strings.  The result pairs the returned value with the cache contents
afterwards; `Except.error ()` models an exception escaping the function. -/
def get_subscription_from_cache (cache : List (String × CachedValue))
    (subscription_id : Nat) :
    Except Unit (Option Subscription × List (String × CachedValue)) :=
  let key := _get_subscription_cache_key subscription_id
  match List.lookup key cache with
  | none => Except.ok (none, cache)                        -- absent: miss
  | some CachedValue.emptyStr => Except.ok (none, cache)   -- falsy: miss
  | some CachedValue.invalidJson =>
      -- JSONDecodeError caught: delete the entry, fall through to miss
      Except.ok (none, cache.filter (fun e => e.1 != key))
  | some CachedValue.jsonNotSubscription => Except.error ()  -- uncaught
  | some (CachedValue.subscriptionVal s) => Except.ok (some s, cache)

/-- **C8 counterexample.** A stored entry that is valid JSON but not a
valid `Subscription` (e.g. the string `"[]"`) cannot be deserialized, yet
the get neither returns a miss nor removes it: `Subscription(**json.loads(...))`
raises outside every `except` clause of the source. -/
theorem cache_get_counterexample :
    get_subscription_from_cache
        [("subscription:7", CachedValue.jsonNotSubscription)] 7
      = Except.error () := by
  rfl

/-- **C8 (amended).** Over a healthy cache: a get on an absent key is a
miss; a get on a stored value that `json.loads` rejects is a miss and
removes the offending entry — except the empty string, which the falsy
check turns into a plain miss with the entry left in place; a stored value
that parses as JSON but does not validate as a `Subscription` raises; a
well-formed entry is returned with the cache unchanged. -/
theorem cache_get_behaviour (cache : List (String × CachedValue))
    (subscription_id : Nat) :
    (List.lookup (_get_subscription_cache_key subscription_id) cache = none →
      get_subscription_from_cache cache subscription_id = Except.ok (none, cache))
    ∧ (List.lookup (_get_subscription_cache_key subscription_id) cache
          = some CachedValue.invalidJson →
        get_subscription_from_cache cache subscription_id
          = Except.ok (none, cache.filter
              (fun e => e.1 != _get_subscription_cache_key subscription_id)))
    ∧ (List.lookup (_get_subscription_cache_key subscription_id) cache
          = some CachedValue.emptyStr →
        get_subscription_from_cache cache subscription_id = Except.ok (none, cache))
    ∧ (List.lookup (_get_subscription_cache_key subscription_id) cache
          = some CachedValue.jsonNotSubscription →
        get_subscription_from_cache cache subscription_id = Except.error ())
    ∧ (∀ s : Subscription,
        List.lookup (_get_subscription_cache_key subscription_id) cache
          = some (CachedValue.subscriptionVal s) →
        get_subscription_from_cache cache subscription_id
          = Except.ok (some s, cache)) := by
  refine ⟨?_, ?_, ?_, ?_, ?_⟩
  · intro h; simp [get_subscription_from_cache, h]
  · intro h; simp [get_subscription_from_cache, h]
  · intro h; simp [get_subscription_from_cache, h]
  · intro h; simp [get_subscription_from_cache, h]
  · intro s h; simp [get_subscription_from_cache, h]

/-- Witness for the amended C8: a cache holding one undecodable entry
yields a miss and drops the entry. -/
theorem cache_get_behaviour_witness :
    get_subscription_from_cache [("subscription:3", CachedValue.invalidJson)] 3
      = Except.ok (none, ([] : List (String × CachedValue))) :=
  ((cache_get_behaviour [("subscription:3", CachedValue.invalidJson)] 3).2.1
    (by rfl)).trans (by rfl)

end WebhookService

namespace WebhookService

/-- JSON values as produced by `json.loads`. -/
inductive Json
  | null
  | bool (b : Bool)
  | num (n : Int)
  | str (s : String)
  | arr (elems : List Json)
  | obj (fields : List (String × Json))

/-- HTTP response statuses the ingestion endpoint can produce. -/
inductive IngestStatus
  | accepted      -- 202
  | badRequest    -- 400
  | unauthorized  -- 401
  | notFound      -- 404
  | serverError   -- 500
deriving DecidableEq

/-- Embedding of `ingest_webhook` (`app/api/endpoints/ingestion.py`).

* `hmacHex` and `parseJson` stand for the `hmac`/`hashlib` and
  `json.loads` library calls;
* `sub` is the result of `db_subscriptions.get_subscription`;
* `raw_body` is the buffered raw request body, `signature_header` the
  value of `X-Webhook-Signature-256`;
* `insertOk` (`enqueueOk`) say whether the store insert (the task
  enqueue) succeeds;
* the result is the response status paired with the payload of the
  delivery row created, `none` when no row was created.  An exception
  escaping `verify_signature` is an unhandled server error. -/
def ingest_webhook (hmacHex : String → Bytes → String)
    (parseJson : Bytes → Except String Json) (sub : Option Subscription)
    (raw_body : Bytes) (signature_header : Option String)
    (insertOk enqueueOk : Bool) : IngestStatus × Option Json :=
  match sub with
  | none => (IngestStatus.notFound, none)
  | some s =>
    match verify_signature hmacHex s.secret_key raw_body signature_header with
    | Except.error _ => (IngestStatus.serverError, none)
    | Except.ok false => (IngestStatus.unauthorized, none)
    | Except.ok true =>
      -- payload = {}; if raw_body: payload = json.loads(raw_body.decode())
      match (if raw_body = [] then Except.ok (Json.obj []) else parseJson raw_body) with
      | Except.error _ => (IngestStatus.badRequest, none)
      | Except.ok payload =>
        if insertOk then
          if enqueueOk then (IngestStatus.accepted, some payload)
          else (IngestStatus.serverError, some payload)  -- row stays pending
        else (IngestStatus.serverError, none)

/-- **C5.** Signature verification runs on the exact raw body bytes before
any JSON parsing: whenever the verifier rejects (which for an existing
subscription requires a configured nonempty secret, by
`verify_signature_empty_secret`), the endpoint answers 401 and creates no
delivery row — uniformly in the JSON parser, so an unparseable body still
yields 401, never 400. -/
theorem ingest_rejects_before_parse (hmacHex : String → Bytes → String)
    (parseJson : Bytes → Except String Json) (s : Subscription)
    (raw_body : Bytes) (signature_header : Option String)
    (insertOk enqueueOk : Bool)
    (hverify : verify_signature hmacHex s.secret_key raw_body signature_header
      = Except.ok false) :
    ingest_webhook hmacHex parseJson (some s) raw_body signature_header
        insertOk enqueueOk
      = (IngestStatus.unauthorized, none) := by
  simp [ingest_webhook, hverify]

/-- Witness for C5: a subscription with secret `"k"`, no signature header
and a body that is not valid JSON gets 401 with no delivery row. -/
theorem ingest_rejects_before_parse_witness :
    ingest_webhook (fun _ _ => "00") (fun _ => Except.error "invalid JSON")
        (some ⟨1, "http://target.example", some "k"⟩) [123] none true true
      = (IngestStatus.unauthorized, none) :=
  ingest_rejects_before_parse (fun _ _ => "00") (fun _ => Except.error "invalid JSON")
    ⟨1, "http://target.example", some "k"⟩ [123] none true true rfl

/-- **C7.** An empty request body for an existing subscription without a
secret and with no signature header is accepted (202) when the store
insert and the enqueue succeed, and the created delivery row's payload is
the empty object `{}` — for every JSON parser, which is never consulted. -/
theorem ingest_empty_body_no_secret (hmacHex : String → Bytes → String)
    (parseJson : Bytes → Except String Json) (s : Subscription)
    (hsecret : s.secret_key = none) :
    ingest_webhook hmacHex parseJson (some s) [] none true true
      = (IngestStatus.accepted, some (Json.obj [])) := by
  simp [ingest_webhook, verify_signature, hsecret]

/-- Witness for C7 at a concrete secretless subscription and a parser that
rejects everything. -/
theorem ingest_empty_body_no_secret_witness :
    ingest_webhook (fun _ _ => "00") (fun _ => Except.error "invalid JSON")
        (some ⟨2, "http://target.example", none⟩) [] none true true
      = (IngestStatus.accepted, some (Json.obj [])) :=
  ingest_empty_body_no_secret (fun _ _ => "00") (fun _ => Except.error "invalid JSON")
    ⟨2, "http://target.example", none⟩ rfl

end WebhookService

namespace WebhookService

/-- The `SubscriptionUpdate` body (`app/models/subscription.py`) under
`dict(exclude_unset=True)`: the outer `none` means the field was not
supplied in the request; `secret_key` may be explicitly supplied as a
string (inner `some`) or as JSON null (inner `none`). -/
structure SubscriptionUpdate where
  target_url : Option String
  secret_key : Option (Option String)
deriving DecidableEq

/-- Embedding of `update_subscription` (`app/db/subscriptions.py`),
acting on the store row for the given id (when any).  Returns the
subscription handed back to the caller and whether a DB `update`
statement was executed. -/
def update_subscription (row : Option Subscription)
    (subscription_update : SubscriptionUpdate) : Option Subscription × Bool :=
  -- update_data = subscription_update.dict(exclude_unset=True)
  if subscription_update.target_url = none ∧ subscription_update.secret_key = none then
    (row, false)  -- `if not update_data: return get_subscription(...)`
  else
    -- `if 'secret_key' in update_data and update_data['secret_key'] == '':`
    let secret_key' : Option (Option String) :=
      match subscription_update.secret_key with
      | some (some "") => some none
      | sk => sk
    match row with
    | none => (none, true)  -- update matched no row: empty response
    | some r =>
      (some { r with
              target_url := subscription_update.target_url.getD r.target_url,
              secret_key := secret_key'.getD r.secret_key }, true)

example :
    update_subscription (some ⟨1, "http://a", some "k"⟩) ⟨none, some (some "")⟩
      = (some ⟨1, "http://a", none⟩, true) := by decide

example :
    update_subscription (some ⟨1, "http://a", some "k"⟩) ⟨some "http://b", none⟩
      = (some ⟨1, "http://b", some "k"⟩, true) := by decide

example :
    update_subscription (some ⟨1, "http://a", some "k"⟩) ⟨none, none⟩
      = (some ⟨1, "http://a", some "k"⟩, false) := by decide

/-- **C10.** `update_subscription` normalises an explicitly supplied
empty-string `secret_key` to null before writing, so the updated row has
no secret and ingestion for it then accepts unsigned requests; fields not
supplied in the update are left unchanged; and an update with no fields
set returns the current subscription without executing a write. -/
theorem update_subscription_spec (r : Subscription) (upd : SubscriptionUpdate) :
    (upd.secret_key = some (some "") →
      ∃ r' : Subscription, update_subscription (some r) upd = (some r', true)
        ∧ r'.secret_key = none
        ∧ ∀ (hmacHex : String → Bytes → String) (body : Bytes),
            verify_signature hmacHex r'.secret_key body none = Except.ok true)
    ∧ (∀ r' : Subscription, update_subscription (some r) upd = (some r', true) →
        (upd.secret_key = none → r'.secret_key = r.secret_key)
        ∧ (upd.target_url = none → r'.target_url = r.target_url))
    ∧ (upd.target_url = none → upd.secret_key = none →
        update_subscription (some r) upd = (some r, false)) := by
  refine ⟨?_, ?_, ?_⟩
  · intro hsk
    refine ⟨⟨r.id, upd.target_url.getD r.target_url, none⟩, ?_, rfl, fun _ _ => rfl⟩
    simp [update_subscription, hsk]
  · intro r' hupd
    constructor
    · intro hsk
      by_cases hturl : upd.target_url = none
      · rw [update_subscription, if_pos ⟨hturl, hsk⟩] at hupd
        injection hupd with h1 h2
        exact Bool.noConfusion h2
      · rw [update_subscription, if_neg (fun hand => hturl hand.1)] at hupd
        simp only [hsk] at hupd
        injection hupd with h1 _
        injection h1 with h1
        rw [← h1]
        rfl
    · intro hturl
      by_cases hsk : upd.secret_key = none
      · rw [update_subscription, if_pos ⟨hturl, hsk⟩] at hupd
        injection hupd with h1 h2
        exact Bool.noConfusion h2
      · rw [update_subscription, if_neg (fun hand => hsk hand.2)] at hupd
        simp only [hturl] at hupd
        injection hupd with h1 _
        injection h1 with h1
        rw [← h1]
        simp [Option.getD]
  · intro hturl hsk
    rw [update_subscription, if_pos ⟨hturl, hsk⟩]

/-- Witness for C10: updating a subscription that has secret `"k"` with an
explicit empty-string secret clears the secret and writes; the no-field
update reads back unchanged without writing. -/
theorem update_subscription_spec_witness :
    (∃ r' : Subscription,
        update_subscription (some ⟨1, "http://a", some "k"⟩) ⟨none, some (some "")⟩
          = (some r', true)
        ∧ r'.secret_key = none
        ∧ ∀ (hmacHex : String → Bytes → String) (body : Bytes),
            verify_signature hmacHex r'.secret_key body none = Except.ok true)
    ∧ update_subscription (some ⟨1, "http://a", some "k"⟩) ⟨none, none⟩
        = (some ⟨1, "http://a", some "k"⟩, false) :=
  ⟨(update_subscription_spec ⟨1, "http://a", some "k"⟩ ⟨none, some (some "")⟩).1 rfl,
   (update_subscription_spec ⟨1, "http://a", some "k"⟩ ⟨none, none⟩).2.2 rfl rfl⟩

end WebhookService
